import Mathlib

/-!
Shallow embedding of the content-generation backend
(models `Content.js`, `Analytics.js`, `User.js`, the content and analytics
controllers, `aiService.js` and `figmaService.js`) together with proofs of
the specification claims about it.

Conventions of the embedding:
* Mongo ObjectIds are `Nat`; Date values are reduced to a calendar-day
  index `Nat` (the code only compares dates via `toDateString`, i.e. by
  calendar day) except where only ordering matters.
* JS numbers are `ℚ` (the analytics scores and percentage arithmetic are
  exact in the ranges used); counters are `Nat`.
* `async`/`await` and `save()` round-trips are elided: a document is the
  in-memory state, a "save" is returning the new state.
* Fallible controller actions return `Except APIErr α`; `APIError(msg,
  status)` from `errorHandler.js` is the `APIErr` structure.
-/

namespace CMS

/-- `APIError` of `middlewares/errorHandler.js`: a message and an HTTP
status code. -/
structure APIErr where
  message : String
  status : Nat
deriving DecidableEq

/-- The authenticated request context (`req.user`): the account id and the
company id, which is all the content controller reads from it. -/
structure UserCtx where
  id : Nat
  company : Nat
deriving DecidableEq

/-- `status` enum of the content schema (`Content.js`). -/
inductive Status where
  | draft
  | published
  | archived
deriving DecidableEq

/-- Per-channel distribution status enum (`Content.js`). -/
inductive ChanStatus where
  | pending
  | published
  | failed
deriving DecidableEq

/-- One entry of `distribution.channels` (`Content.js`). -/
structure Channel where
  platform : String
  cstatus : ChanStatus
  publishedAt : Option Nat
deriving DecidableEq

/-- `distribution.schedule` (`Content.js`). -/
structure Schedule where
  publishAt : Nat
  timezone : String
deriving DecidableEq

/-- One entry of the `revisions` array of the content schema. -/
structure Revision where
  content : String
  modifiedBy : Nat
  version : Nat
  changeLog : String
deriving DecidableEq

/-- The content document (`Content.js` schema), restricted to the fields
the controllers touch.  `type` is `ctype` (`type` is reserved in Lean). -/
structure Content where
  title : String
  ctype : String
  content : String
  status : Status
  author : Nat
  company : Nat
  channels : List Channel
  schedule : Option Schedule
  version : Nat
  revisions : List Revision
  isArchived : Bool
deriving DecidableEq

/-- A fresh content document as built by `generateContent` in the
controller: schema defaults give `status = draft`, `version = 1`, empty
`revisions`, `isArchived = false`. -/
def Content.fresh (title ctype body : String) (author company : Nat) : Content :=
  { title := title, ctype := ctype, content := body, status := .draft,
    author := author, company := company, channels := [], schedule := none,
    version := 1, revisions := [], isArchived := false }

/-- `contentSchema.methods.addRevision` (`Content.js` lines 157-169):
push the *current* body with the *current* version onto `revisions`, then
overwrite the body and increment `version`. -/
def addRevision (userId : Nat) (newContent changeLog : String) (c : Content) : Content :=
  { c with
    revisions := c.revisions ++ [{ content := c.content, modifiedBy := userId,
                                   version := c.version, changeLog := changeLog }],
    content := newContent,
    version := c.version + 1 }

/-- The content store: documents keyed by id (`Content.findById` is a
lookup). -/
abbrev Store := List (Nat × Content)

/-- `Content.findById`. -/
def findById (s : Store) (id : Nat) : Option Content :=
  (List.lookup id s)

/-- Writing a (possibly modified) document back (`content.save()`). -/
def storeSet (s : Store) (id : Nat) (c : Content) : Store :=
  (s.map (fun e => if e.1 = id then (e.1, c) else e) : List (Nat × Content))

def notFoundErr : APIErr := { message := "Content not found", status := 404 }
def unauthorizedErr : APIErr := { message := "Unauthorized", status := 403 }
def versionNotFoundErr : APIErr := { message := "Version not found", status := 404 }

/-- `improveContent` (contentController lines 76-116): find, 404 if
absent, 403 if the caller is not the author, then `addRevision` with the
AI-improved text.  The AI call is abstracted by passing its output
`improved` as an argument. -/
def improveContent (s : Store) (id : Nat) (caller : UserCtx)
    (improved feedback : String) : Except APIErr Store :=
  match findById s id with
  | none => .error notFoundErr
  | some c =>
    if c.author ≠ caller.id then .error unauthorizedErr
    else .ok (storeSet s id
        (addRevision caller.id improved ("Improved based on feedback: " ++ feedback) c))

/-- `updateContent` (contentController lines 206-246): find, 404/403
checks, then `addRevision(user, content.content, 'Manual update')`
(note: the *old* body is passed as the new one), then the body is
overwritten with the request's new content and `status` is set when
truthy. -/
def updateContent (s : Store) (id : Nat) (caller : UserCtx)
    (newContent : String) (status? : Option Status) : Except APIErr Store :=
  match findById s id with
  | none => .error notFoundErr
  | some c =>
    if c.author ≠ caller.id then .error unauthorizedErr
    else
      let c1 := addRevision caller.id c.content "Manual update" c
      let c2 := { c1 with content := newContent,
                          status := status?.getD c1.status }
      .ok (storeSet s id c2)

/-- `deleteContent` (contentController lines 254-279): soft delete; sets
`isArchived := true` only. -/
def deleteContent (s : Store) (id : Nat) (caller : UserCtx) : Except APIErr Store :=
  match findById s id with
  | none => .error notFoundErr
  | some c =>
    if c.author ≠ caller.id then .error unauthorizedErr
    else .ok (storeSet s id { c with isArchived := true })

/-- `publishContent` (contentController lines 287-325): the channel list
is replaced wholesale, each entry `published` with a timestamp, and the
artifact status is set to `published` — with no check of the previous
status. -/
def publishContent (s : Store) (id : Nat) (caller : UserCtx)
    (channels : List String) (now : Nat) : Except APIErr Store :=
  match findById s id with
  | none => .error notFoundErr
  | some c =>
    if c.author ≠ caller.id then .error unauthorizedErr
    else .ok (storeSet s id
      { c with
        channels := channels.map (fun p =>
          { platform := p, cstatus := .published, publishedAt := some now }),
        status := .published })

/-- `scheduleContent` (contentController lines 333-374). -/
def scheduleContent (s : Store) (id : Nat) (caller : UserCtx)
    (publishAt : Nat) (timezone : String) (channels : List String) : Except APIErr Store :=
  match findById s id with
  | none => .error notFoundErr
  | some c =>
    if c.author ≠ caller.id then .error unauthorizedErr
    else .ok (storeSet s id
      { c with
        schedule := some { publishAt := publishAt, timezone := timezone },
        channels := channels.map (fun p =>
          { platform := p, cstatus := .pending, publishedAt := none }) })

/-- `getContentVersions` (contentController lines 485-497): find, 404 if
absent, then the revisions are returned — there is no ownership or
company check in this handler. -/
def getContentVersions (s : Store) (id : Nat) (_caller : UserCtx) :
    Except APIErr (List Revision) :=
  match findById s id with
  | none => .error notFoundErr
  | some c => .ok c.revisions

/-- `restoreContentVersion` (contentController lines 533-573): find the
document and the requested revision (404s), `addRevision` with the
*current* body, then overwrite the body with the historical snapshot.
There is no ownership or company check in this handler. -/
def restoreContentVersion (s : Store) (id : Nat) (caller : UserCtx)
    (versionNum : Nat) : Except APIErr Store :=
  match findById s id with
  | none => .error notFoundErr
  | some c =>
    match c.revisions.find? (fun r => r.version = versionNum) with
    | none => .error versionNotFoundErr
    | some v =>
      let c1 := addRevision caller.id c.content
        ("Restored to version " ++ toString versionNum) c
      .ok (storeSet s id { c1 with content := v.content })

/-- `bulkPublishContent` (contentController lines 581-619): every
document matching `_id ∈ contentIds ∧ company = caller.company` gets the
wholesale channel replacement and `status := published`, regardless of
its previous status. -/
def bulkPublishContent (s : Store) (ids : List Nat) (caller : UserCtx)
    (channels : List String) (now : Nat) : Except APIErr Store :=
  let matching := s.filter (fun e => ids.contains e.1 && e.2.company = caller.company)
  if matching.isEmpty then .error { message := "No content found", status := 404 }
  else .ok (s.map (fun e =>
    if ids.contains e.1 && e.2.company = caller.company then
      (e.1, { e.2 with
              channels := channels.map (fun p =>
                { platform := p, cstatus := .published, publishedAt := some now }),
              status := .published })
    else e))

/-- Query predicate of `listContent` (contentController lines 124-157):
`company = req.user.company ∧ isArchived = false`, plus the optional
`type` and `status` filters. -/
def listQueryMatches (caller : UserCtx) (ty : Option String) (st : Option Status)
    (c : Content) : Bool :=
  c.company = caller.company && c.isArchived = false
    && (match ty with | none => true | some t => c.ctype = t)
    && (match st with | none => true | some t => c.status = t)

/-- `listContent` (contentController lines 124-157): filter by the query,
paginate with `skip ((page-1)*limit)` and `limit`, and count the matching
documents (`countDocuments` runs the same query).  The `createdAt` sort
only permutes the filtered list and is elided. -/
def listContent (s : Store) (caller : UserCtx) (ty : Option String)
    (st : Option Status) (page limit : Nat) : List Content × Nat :=
  let matching := (s.map Prod.snd).filter (listQueryMatches caller ty st)
  (matching.drop ((page - 1) * limit) |>.take limit, matching.length)

/-! ## Analytics model (`Analytics.js`) -/

/-- One entry of `metrics.views`: a timestamp (reduced to its calendar
day), source and user agent. -/
structure ViewEvent where
  day : Nat
  source : String
  userAgent : String
deriving DecidableEq

/-- One entry of `metrics.engagement.likes`. -/
structure LikeEvent where
  day : Nat
  userId : Nat
deriving DecidableEq

/-- One entry of `metrics.engagement.shares`. -/
structure ShareEvent where
  day : Nat
  platform : String
  userId : Nat
deriving DecidableEq

/-- One entry of `metrics.engagement.comments`. -/
structure CommentEvent where
  day : Nat
  text : String
  userId : Nat
deriving DecidableEq

/-- One entry of `sentiment.history`. -/
structure SentimentEntry where
  day : Nat
  score : ℚ
  source : String
deriving DecidableEq

/-- The per-day metrics of a `timeSeriesData` entry. -/
structure TsMetrics where
  views : Nat
  likes : Nat
  shares : Nat
  comments : Nat
  sentiment : Option ℚ
deriving DecidableEq

/-- One entry of `timeSeriesData`. -/
structure TsEntry where
  date : Nat
  metrics : TsMetrics
deriving DecidableEq

/-- `aggregates.daily`.  The schema gives its numeric fields no default,
so a never-written aggregate is absent (`Option` at the document level). -/
structure DailyAgg where
  date : Nat
  views : Nat
  likes : Nat
  shares : Nat
  comments : Nat
  sentiment : Option ℚ
deriving DecidableEq

/-- The analytics document (`Analytics.js` schema) for one content
artifact.  `sentiment.overall.score` starts absent, hence `Option`.  The
weekly/monthly aggregates are never written by the code (`Similar updates
... omitted`) and are left out. -/
structure AnalyticsDoc where
  contentId : Nat
  company : Nat
  views : List ViewEvent
  likes : List LikeEvent
  shares : List ShareEvent
  comments : List CommentEvent
  sentimentHistory : List SentimentEntry
  overallScore : Option ℚ
  timeSeriesData : List TsEntry
  daily : Option DailyAgg
deriving DecidableEq

/-- A fresh analytics document, as created at content-generation time:
all raw logs empty, no overall score, no rollups. -/
def AnalyticsDoc.fresh (contentId company : Nat) : AnalyticsDoc :=
  { contentId := contentId, company := company, views := [], likes := [],
    shares := [], comments := [], sentimentHistory := [], overallScore := none,
    timeSeriesData := [], daily := none }

/-- The same-day counts recomputed from the raw logs: the body of both
`updateTimeSeriesData` and the daily part of `updateAggregates`
(`Analytics.js` lines 162-225) filters each raw log by
`timestamp.toDateString() === today.toDateString()` and counts. -/
def recomputeTsMetrics (a : AnalyticsDoc) (today : Nat) : TsMetrics :=
  { views := (a.views.filter (fun v => v.day = today)).length,
    likes := (a.likes.filter (fun l => l.day = today)).length,
    shares := (a.shares.filter (fun s => s.day = today)).length,
    comments := (a.comments.filter (fun c => c.day = today)).length,
    sentiment := a.overallScore }

/-- The daily aggregate recomputed from the raw logs (`updateAggregates`,
`Analytics.js` lines 197-225). -/
def recomputeDaily (a : AnalyticsDoc) (today : Nat) : DailyAgg :=
  { date := today,
    views := (a.views.filter (fun v => v.day = today)).length,
    likes := (a.likes.filter (fun l => l.day = today)).length,
    shares := (a.shares.filter (fun s => s.day = today)).length,
    comments := (a.comments.filter (fun c => c.day = today)).length,
    sentiment := a.overallScore }

/-- `updateTimeSeriesData` (`Analytics.js` lines 162-194): build today's
metrics from the raw logs, then overwrite the entry with today's date if
one exists, else append it. -/
def updateTimeSeriesData (today : Nat) (a : AnalyticsDoc) : AnalyticsDoc :=
  let entry : TsEntry := { date := today, metrics := recomputeTsMetrics a today }
  match a.timeSeriesData.findIdx? (fun d => d.date = today) with
  | some i => { a with timeSeriesData := a.timeSeriesData.set i entry }
  | none => { a with timeSeriesData := a.timeSeriesData ++ [entry] }

/-- `updateAggregates` (`Analytics.js` lines 197-225): refresh the time
series, then overwrite `aggregates.daily` with values recomputed from the
raw logs. -/
def updateAggregates (today : Nat) (a : AnalyticsDoc) : AnalyticsDoc :=
  let a1 := updateTimeSeriesData today a
  { a1 with daily := some (recomputeDaily a1 today) }

/-- `addView` (`Analytics.js` lines 129-133): push the raw view event,
then `updateAggregates`. -/
def addView (v : ViewEvent) (today : Nat) (a : AnalyticsDoc) : AnalyticsDoc :=
  updateAggregates today { a with views := a.views ++ [v] }

/-- The payload of `addEngagement(type, data)`: which engagement sub-log
is pushed. -/
inductive EngData where
  | like (e : LikeEvent)
  | share (e : ShareEvent)
  | comment (e : CommentEvent)
deriving DecidableEq

/-- `addEngagement` (`Analytics.js` lines 136-140): push onto
`metrics.engagement[type]`, then `updateAggregates`. -/
def addEngagement (d : EngData) (today : Nat) (a : AnalyticsDoc) : AnalyticsDoc :=
  updateAggregates today
    (match d with
     | .like e => { a with likes := a.likes ++ [e] }
     | .share e => { a with shares := a.shares ++ [e] }
     | .comment e => { a with comments := a.comments ++ [e] })

/-- Arithmetic mean of a list of scores (`reduce((a,b)=>a+b)/length`). -/
def meanScore (l : List ℚ) : ℚ :=
  l.sum / l.length

/-- `updateSentiment` (`Analytics.js` lines 143-159): push the sample,
overwrite `sentiment.overall` with the arithmetic mean of the whole
history, then `updateAggregates`. -/
def updateSentimentA (score : ℚ) (source : String) (today : Nat)
    (a : AnalyticsDoc) : AnalyticsDoc :=
  let hist := a.sentimentHistory ++ [{ day := today, score := score, source := source }]
  updateAggregates today
    { a with sentimentHistory := hist,
             overallScore := some (meanScore (hist.map (fun h => h.score))) }

/-- The raw `$push` of a view that `getContent` performs
(contentController lines 180-191): it appends to `metrics.views` through
`findOneAndUpdate` and does not call `updateAggregates` (nor any other
recomputation). -/
def getContentViewPush (v : ViewEvent) (a : AnalyticsDoc) : AnalyticsDoc :=
  { a with views := a.views ++ [v] }

/-- `getContent` (contentController lines 165-198) in full: find (404),
reject when the document's company differs from the caller's (403), then
push a raw view event into the artifact's analytics document and return
the content. -/
def getContent (s : Store) (ana : AnalyticsDoc) (id : Nat) (caller : UserCtx)
    (v : ViewEvent) : Except APIErr (Content × AnalyticsDoc) :=
  match findById s id with
  | none => .error notFoundErr
  | some c =>
    if c.company ≠ caller.company then .error unauthorizedErr
    else .ok (c, if ana.contentId = id then getContentViewPush v ana else ana)

/-! ## Account serialization (`User.js`) -/

/-- The keys `toJSON` deletes from the account object: the credential
hash, the API key and the design-tool integration tokens. -/
def sensitiveKeys : List String := ["password", "apiKey", "figmaIntegration"]

/-- `userSchema.methods.toJSON` (`User.js` lines 128-134): take the plain
object (an association list of fields) and delete `password`, `apiKey`
and `figmaIntegration`.  JSON round-tripping a plain object is the
identity on this representation, so repeated serialize/deserialize passes
are iterates of this function. -/
def userToJSON (obj : List (String × String)) : List (String × String) :=
  obj.filter (fun kv => !(sensitiveKeys.contains kv.1))

/-! ## Percentage change (`analyticsController.js`) -/

/-- `calculatePercentageChange` (analyticsController lines 730-733). -/
def calculatePercentageChange (oldValue newValue : ℚ) : ℚ :=
  if oldValue = 0 then (if newValue = 0 then 0 else 100)
  else (newValue - oldValue) / oldValue * 100

/-! ## Generation orchestrator (`aiService.js`) -/

/-- Replace every occurrence of `pat` in `cs`, left to right,
non-overlapping, without rescanning the replacement — the semantics of
`String.prototype.replace` with a global regex.  Fuel-driven; the call
sites pass `cs.length`, enough for any non-empty pattern. -/
def replaceAllAux : Nat → List Char → List Char → List Char → List Char
  | 0, cs, _, _ => cs
  | fuel + 1, cs, pat, rep =>
    match cs with
    | [] => []
    | c :: rest =>
      if pat.isPrefixOf cs then rep ++ replaceAllAux fuel (cs.drop pat.length) pat rep
      else c :: replaceAllAux fuel rest pat rep

/-- `template.replace(new RegExp(..., 'g'), value)` on plain strings. -/
def replaceAll (s pat rep : String) : String :=
  ⟨replaceAllAux s.length s.data pat.data rep.data⟩

/-- `this.promptTemplates` (`aiService.js` lines 21-56), keyed by content
type; an unknown key is `undefined` (`none`).  The multi-line template
whitespace is condensed; every `\x7bname\x7d` placeholder is kept
verbatim. -/
def promptTemplates (t : String) : Option String :=
  if t = "blog" then
    some "Write a professional blog post about {topic}. Tone: {tone} Target audience: {audience} Key points to cover: {points}"
  else if t = "social_post" then
    some "Create a engaging social media post about {topic}. Platform: {platform} Tone: {tone} Include hashtags: {hashtags}"
  else if t = "email" then
    some "Write a {type} email about {topic}. Tone: {tone} Target audience: {audience} Call to action: {cta}"
  else if t = "design_doc" then
    some "Create a detailed design documentation for {topic}. Include sections for: - Overview - Technical specifications - Implementation details - Design considerations"
  else if t = "changelog" then
    some "Write a changelog entry for {topic}. Type: {type} Version: {version} Include sections for: - New features - Improvements - Bug fixes"
  else if t = "internal_comm" then
    some "Create an internal communication about {topic}. Type: {type} Audience: {audience} Key message: {message}"
  else none

/-- `formatPrompt` (`aiService.js` lines 65-77): look the template up by
type, then for each key of `params` replace every `\x7bkey\x7d`
occurrence with the key's value.  Keys the caller does not supply are
left untouched. -/
def formatPrompt (t : String) (params : List (String × String)) : Option String :=
  (promptTemplates t).map (fun template =>
    params.foldl (fun tem kv => replaceAll tem ("\x7b" ++ kv.1 ++ "\x7d") kv.2) template)

/-- The fixed default generation parameters (`aiService.js` lines 12-18). -/
structure GenParams where
  temperature : ℚ
  maxTokens : ℚ
  topP : ℚ
  frequencyPenalty : ℚ
  presencePenalty : ℚ
deriving DecidableEq

def defaultParams : GenParams :=
  { temperature := 7/10, maxTokens := 1000, topP := 1,
    frequencyPenalty := 0, presencePenalty := 0 }

/-- Caller-supplied `params.generationParams`: a partial override. -/
structure GenParamsOpt where
  temperature : Option ℚ := none
  maxTokens : Option ℚ := none
  topP : Option ℚ := none
  frequencyPenalty : Option ℚ := none
  presencePenalty : Option ℚ := none
deriving DecidableEq

/-- `{...this.defaultParams, ...params.generationParams}`. -/
def mergeParams (d : GenParams) (o : GenParamsOpt) : GenParams :=
  { temperature := o.temperature.getD d.temperature,
    maxTokens := o.maxTokens.getD d.maxTokens,
    topP := o.topP.getD d.topP,
    frequencyPenalty := o.frequencyPenalty.getD d.frequencyPenalty,
    presencePenalty := o.presencePenalty.getD d.presencePenalty }

/-- A successful completion from the outbound API: text and token usage. -/
structure Completion where
  text : String
  totalTokens : Nat
deriving DecidableEq

/-- What `generateContent` returns on success: the text with its
generation metadata (wall-clock processing time elided). -/
structure GenResult where
  content : String
  prompt : String
  aiModel : String
  params : GenParams
deriving DecidableEq

/-- `generateContent` (`aiService.js` lines 85-155).  The outbound call
is an oracle `api : prompt → params → Except (Option String) Completion`;
`.error (some m)` is an upstream HTTP failure carrying a response (mapped
to a 503 `APIError`), `.error none` any other throw (mapped to 500).  An
unknown type makes `template.replace` throw a `TypeError` on `undefined`,
which the `catch` turns into the 500 `APIError`.  No placeholder
validation is performed anywhere. -/
def generateContent (t : String) (params : List (String × String))
    (gp : GenParamsOpt) (api : String → GenParams → Except (Option String) Completion) :
    Except APIErr GenResult :=
  match formatPrompt t params with
  | none => .error { message := "Error generating content", status := 500 }
  | some prompt =>
    let g := mergeParams defaultParams gp
    match api prompt g with
    | .error (some upMsg) =>
        .error { message := "OpenAI API Error: " ++ upMsg, status := 503 }
    | .error none => .error { message := "Error generating content", status := 500 }
    | .ok comp =>
        .ok { content := comp.text, prompt := prompt, aiModel := "gpt-4", params := g }

/-! ## Design-token extraction (`figmaService.js`) -/

/-- A normalized-float RGB color as delivered by the design API. -/
structure RGB where
  r : ℚ
  g : ℚ
  b : ℚ
deriving DecidableEq

/-- One fill of a node (`fill.type`, `fill.color`). -/
structure Fill where
  ftype : String
  color : RGB
deriving DecidableEq

/-- The typography descriptor extracted from `node.style`
(`fontFamily/fontSize/fontWeight/lineHeight`).  The source deduplicates
these via `JSON.stringify`; since they are built with a fixed key order,
string equality of the serializations is structural equality of the
records. -/
structure TextStyle where
  fontFamily : String
  fontSize : ℚ
  fontWeight : ℚ
  lineHeight : ℚ
deriving DecidableEq

/-- The padding descriptor extracted from a node. -/
structure Padding where
  top : ℚ
  right : ℚ
  bottom : ℚ
  left : ℚ
deriving DecidableEq

/-- `Math.round` on a rational: `⌊x + 1/2⌋`. -/
def jsRound (q : ℚ) : ℤ :=
  ⌊q + 1 / 2⌋

/-- `rgbToHex` (`figmaService.js` lines 212-217): scale each channel to
0-255, round, then `((1<<24)+(r<<16)+(g<<8)+b).toString(16).slice(1)`
behind a `#`.  `Nat.toDigits 16` is exactly `toString(16)` for the
non-negative values produced here. -/
def rgbToHex (c : RGB) : String :=
  let r := jsRound (c.r * 255)
  let g := jsRound (c.g * 255)
  let b := jsRound (c.b * 255)
  let v := (2 ^ 24 + r * 2 ^ 16 + g * 2 ^ 8 + b).toNat
  "#" ++ ⟨(Nat.toDigits 16 v).drop 1⟩

mutual

/-- A node of the design file tree: fills, optional text style, optional
padding, effects (kept in their serialized form, as the source
deduplicates them by `JSON.stringify`), and children.  `NodeList` is the
children list, made mutual so the traversal is structural. -/
inductive FigmaNode where
  | mk (fills : List Fill) (style : Option TextStyle) (padding : Option Padding)
      (effects : List String) (children : NodeList)

/-- The children list of a `FigmaNode`. -/
inductive NodeList where
  | nil
  | cons (n : FigmaNode) (rest : NodeList)

end

/-- The four token categories returned by `extractDesignTokens`. -/
structure DesignTokens where
  colors : List String
  typography : List TextStyle
  spacing : List Padding
  effects : List String
deriving DecidableEq

/-- `Set.add`: a no-op when the element is already present, otherwise an
append (a JS `Set` iterates in insertion order). -/
def insertUnique {α : Type} [DecidableEq α] (l : List α) (x : α) : List α :=
  if x ∈ l then l else l ++ [x]

/-- `fills.forEach`: add the hex of each `SOLID` fill to the color set. -/
def addFillColor (acc : List String) (f : Fill) : List String :=
  if f.ftype = "SOLID" then insertUnique acc (rgbToHex f.color) else acc

/-- The per-node token collection of `traverseNodes` (`figmaService.js`
lines 143-186), before recursing into the children: solid fills become
hex colors, `node.style` a typography token, defined padding a spacing
token, and each effect is added.  The source updates the four
independent sets in sequence; this is that update written field-wise. -/
def collectLocal (fills : List Fill) (style : Option TextStyle)
    (padding : Option Padding) (effects : List String) (t : DesignTokens) :
    DesignTokens :=
  { colors := fills.foldl addFillColor t.colors,
    typography := match style with
                  | none => t.typography
                  | some st => insertUnique t.typography st,
    spacing := match padding with
               | none => t.spacing
               | some p => insertUnique t.spacing p,
    effects := effects.foldl insertUnique t.effects }

mutual

/-- `traverseNodes` on one node: collect its tokens, then recurse into
the children. -/
def traverseNode (n : FigmaNode) (t : DesignTokens) : DesignTokens :=
  match n with
  | .mk fills style padding effects children =>
    traverseList children (collectLocal fills style padding effects t)

/-- `node.children.forEach(traverseNodes)`. -/
def traverseList (ns : NodeList) (t : DesignTokens) : DesignTokens :=
  match ns with
  | .nil => t
  | .cons n rest => traverseList rest (traverseNode n t)

end

/-- `extractDesignTokens` (`figmaService.js` lines 131-205): start from
empty sets and traverse the file's document tree.  (The final
`Array.from`/`JSON.parse` step only changes representation and is the
identity here.) -/
def extractDesignTokens (doc : FigmaNode) : DesignTokens :=
  traverseNode doc { colors := [], typography := [], spacing := [], effects := [] }

/-- Substring test on char lists, used to state that a prompt still
contains a placeholder token. -/
def hasSubstr : List Char → List Char → Bool
  | [], sub => sub.isEmpty
  | c :: rest, sub => sub.isPrefixOf (c :: rest) || hasSubstr rest sub

/-- `String.includes`. -/
def containsSubstr (s sub : String) : Bool :=
  hasSubstr s.data sub.data

/-- Applying a sequence of content-changing edits, each through
`addRevision` (editor, new body, change note). -/
def applyEdits (edits : List (Nat × String × String)) (c : Content) : Content :=
  edits.foldl (fun c e => addRevision e.1 e.2.1 e.2.2 c) c

/-- All four token categories are duplicate-free. -/
def TokensNodup (t : DesignTokens) : Prop :=
  t.colors.Nodup ∧ t.typography.Nodup ∧ t.spacing.Nodup ∧ t.effects.Nodup

/-- A solid red fill (normalized floats `r=1, g=0, b=0`). -/
def redFill : Fill :=
  { ftype := "SOLID", color := { r := 1, g := 0, b := 0 } }

/-- A design file whose document node carries two identically-styled
solid fills. -/
def twoFillFile : FigmaNode :=
  .mk [redFill, redFill] none none [] .nil

/-! ## Supporting lemmas -/

theorem applyEdits_version_revisions (edits : List (Nat × String × String)) :
    ∀ c : Content, (applyEdits edits c).version = c.version + edits.length
      ∧ (applyEdits edits c).revisions.length = c.revisions.length + edits.length := by
  induction edits with
  | nil => intro c; simp [applyEdits]
  | cons e rest ih =>
    intro c
    simp only [applyEdits, List.foldl_cons]
    have h := ih (addRevision e.1 e.2.1 e.2.2 c)
    simp only [applyEdits] at h
    constructor
    · rw [h.1]
      simp [addRevision]
      omega
    · rw [h.2]
      simp [addRevision]
      omega

theorem findById_storeSet (s : Store) (id : Nat) (c c' : Content)
    (h : findById s id = some c) : findById (storeSet s id c') id = some c' := by
  induction s with
  | nil => simp [findById, List.lookup] at h
  | cons e rest ih =>
    by_cases he : id = e.1
    · subst he
      have hs : storeSet (e :: rest) e.1 c' = (e.1, c') :: storeSet rest e.1 c' := by
        simp [storeSet]
      rw [hs]
      simp [findById, List.lookup]
    · have hne : ¬(e.1 = id) := fun hh => he hh.symm
      have hbeq : (id == e.1) = false := by simpa using he
      have h' : findById rest id = some c := by
        simpa [findById, List.lookup, hbeq] using h
      have hs : storeSet (e :: rest) id c' = e :: storeSet rest id c' := by
        simp [storeSet, hne]
      rw [hs]
      simpa [findById, List.lookup, hbeq] using ih h'

/-! ## C1 -/

/-- C1: starting from a fresh artifact (`version = 1`, no revisions),
after `N` successful content-changing edits performed via `addRevision`
the version is `1 + N` and the revision log has `N` entries; moreover a
single `addRevision` call increments `version` by exactly 1 and appends
exactly one revision. -/
theorem C1_version_counts (edits : List (Nat × String × String)) (c0 : Content)
    (h1 : c0.version = 1) (h2 : c0.revisions = []) :
    (applyEdits edits c0).version = 1 + edits.length
      ∧ (applyEdits edits c0).revisions.length = edits.length
      ∧ ∀ (c : Content) (u : Nat) (body note : String),
          (addRevision u body note c).version = c.version + 1
            ∧ (addRevision u body note c).revisions.length = c.revisions.length + 1 := by
  have h := applyEdits_version_revisions edits c0
  refine ⟨?_, ?_, ?_⟩
  · omega
  · rw [h.2, h2]; simp
  · intro c u body note
    simp [addRevision]

/-- Closed instance of `C1_version_counts` at a concrete artifact and two
edits. -/
theorem C1_witness :
    (Content.fresh "t" "blog" "a" 5 9).version = 1
      ∧ (Content.fresh "t" "blog" "a" 5 9).revisions = []
      ∧ (applyEdits [(5, "b", "n1"), (5, "c", "n2")]
          (Content.fresh "t" "blog" "a" 5 9)).version = 1 + 2
      ∧ (applyEdits [(5, "b", "n1"), (5, "c", "n2")]
          (Content.fresh "t" "blog" "a" 5 9)).revisions.length = 2 := by
  have h := C1_version_counts [(5, "b", "n1"), (5, "c", "n2")]
    (Content.fresh "t" "blog" "a" 5 9) rfl rfl
  exact ⟨rfl, rfl, h.1, h.2.1⟩

/-! ## C2 -/

/-- C2: after a single `improveContent`, `updateContent` or
`restoreContentVersion` call that succeeds, the most recently appended
revision stores the artifact's body as it was immediately before the
call, together with the pre-call version number — never the new body. -/
theorem C2_revision_snapshots_precall_body :
    (∀ (s : Store) (id : Nat) (caller : UserCtx) (improved feedback : String)
        (c : Content) (s1 : Store),
        findById s id = some c → improveContent s id caller improved feedback = .ok s1 →
        ∃ c1, findById s1 id = some c1
          ∧ ∃ r, c1.revisions.getLast? = some r
              ∧ r.content = c.content ∧ r.version = c.version)
    ∧ (∀ (s : Store) (id : Nat) (caller : UserCtx) (newContent : String)
        (status? : Option Status) (c : Content) (s1 : Store),
        findById s id = some c → updateContent s id caller newContent status? = .ok s1 →
        ∃ c1, findById s1 id = some c1
          ∧ ∃ r, c1.revisions.getLast? = some r
              ∧ r.content = c.content ∧ r.version = c.version)
    ∧ (∀ (s : Store) (id : Nat) (caller : UserCtx) (versionNum : Nat)
        (c : Content) (s1 : Store),
        findById s id = some c → restoreContentVersion s id caller versionNum = .ok s1 →
        ∃ c1, findById s1 id = some c1
          ∧ ∃ r, c1.revisions.getLast? = some r
              ∧ r.content = c.content ∧ r.version = c.version) := by
  refine ⟨?_, ?_, ?_⟩
  · intro s id caller improved feedback c s1 hfind hok
    simp only [improveContent, hfind] at hok
    by_cases hauth : c.author = caller.id
    · simp only [hauth, ne_eq, not_true_eq_false, if_false, Except.ok.injEq] at hok
      subst hok
      refine ⟨_, findById_storeSet s id c _ hfind, ?_⟩
      simp [addRevision, List.getLast?_concat]
    · simp [hauth] at hok
  · intro s id caller newContent status? c s1 hfind hok
    simp only [updateContent, hfind] at hok
    by_cases hauth : c.author = caller.id
    · simp only [hauth, ne_eq, not_true_eq_false, if_false, Except.ok.injEq] at hok
      subst hok
      refine ⟨_, findById_storeSet s id c _ hfind, ?_⟩
      simp [addRevision, List.getLast?_concat]
    · simp [hauth] at hok
  · intro s id caller versionNum c s1 hfind hok
    simp only [restoreContentVersion, hfind] at hok
    cases hv : c.revisions.find? (fun r => r.version = versionNum) with
    | none => simp [hv] at hok
    | some v =>
      simp only [hv, Except.ok.injEq] at hok
      subst hok
      refine ⟨_, findById_storeSet s id c _ hfind, ?_⟩
      simp [addRevision, List.getLast?_concat]

/-- Closed instance of `C2_revision_snapshots_precall_body`: a concrete
store and one concrete call of each of the three operations. -/
theorem C2_witness :
    (findById [(3, Content.fresh "t" "blog" "orig" 4 9)] 3
        = some (Content.fresh "t" "blog" "orig" 4 9))
      ∧ (improveContent [(3, Content.fresh "t" "blog" "orig" 4 9)] 3
            { id := 4, company := 9 } "better" "fb"
          = .ok (storeSet [(3, Content.fresh "t" "blog" "orig" 4 9)] 3
              (addRevision 4 "better" ("Improved based on feedback: " ++ "fb")
                (Content.fresh "t" "blog" "orig" 4 9))))
      ∧ ∃ c1, findById (storeSet [(3, Content.fresh "t" "blog" "orig" 4 9)] 3
              (addRevision 4 "better" ("Improved based on feedback: " ++ "fb")
                (Content.fresh "t" "blog" "orig" 4 9))) 3 = some c1
          ∧ ∃ r, c1.revisions.getLast? = some r
              ∧ r.content = (Content.fresh "t" "blog" "orig" 4 9).content
              ∧ r.version = (Content.fresh "t" "blog" "orig" 4 9).version := by
  refine ⟨rfl, rfl, ?_⟩
  exact C2_revision_snapshots_precall_body.1
    [(3, Content.fresh "t" "blog" "orig" 4 9)] 3 { id := 4, company := 9 }
    "better" "fb" (Content.fresh "t" "blog" "orig" 4 9) _ rfl rfl

/-! ## C3 -/

theorem updateTimeSeriesData_preserves (today : Nat) (a : AnalyticsDoc) :
    (updateTimeSeriesData today a).views = a.views
      ∧ (updateTimeSeriesData today a).likes = a.likes
      ∧ (updateTimeSeriesData today a).shares = a.shares
      ∧ (updateTimeSeriesData today a).comments = a.comments
      ∧ (updateTimeSeriesData today a).sentimentHistory = a.sentimentHistory
      ∧ (updateTimeSeriesData today a).overallScore = a.overallScore := by
  unfold updateTimeSeriesData
  cases a.timeSeriesData.findIdx? (fun d => d.date = today) <;> simp

theorem updateAggregates_daily (today : Nat) (a : AnalyticsDoc) :
    (updateAggregates today a).daily
      = some (recomputeDaily (updateAggregates today a) today) := rfl

theorem updateAggregates_preserves (today : Nat) (a : AnalyticsDoc) :
    (updateAggregates today a).sentimentHistory = a.sentimentHistory
      ∧ (updateAggregates today a).overallScore = a.overallScore := by
  have h := updateTimeSeriesData_preserves today a
  exact ⟨h.2.2.2.2.1, h.2.2.2.2.2⟩

theorem overall_invariant_step (today : Nat) (a : AnalyticsDoc)
    (h : a.overallScore
      = some (meanScore (a.sentimentHistory.map (fun e : SentimentEntry => e.score)))) :
    (updateAggregates today a).overallScore
      = some (meanScore ((updateAggregates today a).sentimentHistory.map
          (fun e : SentimentEntry => e.score))) := by
  have hp := updateAggregates_preserves today a
  rw [hp.1, hp.2, h]

/-- C3 (amended): appends that go through the `Analytics` model methods
(`addView`, `addEngagement`, `updateSentiment`) do leave the "today"
bucket of the daily rollup equal to the value recomputed from the raw
logs, and `updateSentiment` recomputes the overall score as the
arithmetic mean of the whole sentiment history; but the raw view `$push`
performed by `getContent` when fetching a single content item recomputes
nothing: it leaves the daily rollup, the time series and the overall
score untouched. -/
theorem C3_amended :
    (∀ (a : AnalyticsDoc) (v : ViewEvent) (today : Nat),
        (addView v today a).daily = some (recomputeDaily (addView v today a) today))
      ∧ (∀ (a : AnalyticsDoc) (d : EngData) (today : Nat),
          (addEngagement d today a).daily
            = some (recomputeDaily (addEngagement d today a) today))
      ∧ (∀ (a : AnalyticsDoc) (score : ℚ) (src : String) (today : Nat),
          (updateSentimentA score src today a).daily
              = some (recomputeDaily (updateSentimentA score src today a) today)
            ∧ (updateSentimentA score src today a).overallScore
              = some (meanScore ((updateSentimentA score src today a).sentimentHistory.map
                  (fun e : SentimentEntry => e.score))))
      ∧ (∀ (a : AnalyticsDoc) (v : ViewEvent),
          (getContentViewPush v a).daily = a.daily
            ∧ (getContentViewPush v a).timeSeriesData = a.timeSeriesData
            ∧ (getContentViewPush v a).overallScore = a.overallScore) := by
  refine ⟨?_, ?_, ?_, ?_⟩
  · intro a v today
    exact updateAggregates_daily today _
  · intro a d today
    cases d <;> exact updateAggregates_daily today _
  · intro a score src today
    exact ⟨updateAggregates_daily today _, overall_invariant_step today _ rfl⟩
  · intro a v
    exact ⟨rfl, rfl, rfl⟩

/-- C3 counterexample: fetching a single content item appends a raw view
event to the analytics record but performs no recomputation — afterwards
the raw log holds one view for the day while the daily rollup is still
absent, where a recomputation would have put one view in the today
bucket.  This refutes the claim for the `getContent` code path. -/
theorem C3_counterexample :
    getContent [(1, Content.fresh "t" "blog" "b" 1 1)] (AnalyticsDoc.fresh 1 1) 1
        { id := 1, company := 1 } { day := 5, source := "api", userAgent := "ua" }
      = .ok (Content.fresh "t" "blog" "b" 1 1,
          getContentViewPush { day := 5, source := "api", userAgent := "ua" }
            (AnalyticsDoc.fresh 1 1))
      ∧ (getContentViewPush { day := 5, source := "api", userAgent := "ua" }
          (AnalyticsDoc.fresh 1 1)).views.length = 1
      ∧ (getContentViewPush { day := 5, source := "api", userAgent := "ua" }
          (AnalyticsDoc.fresh 1 1)).daily = none
      ∧ (recomputeDaily (getContentViewPush { day := 5, source := "api", userAgent := "ua" }
          (AnalyticsDoc.fresh 1 1)) 5).views = 1 :=
  ⟨rfl, rfl, rfl, rfl⟩

/-! ## C4 -/

/-- C4 (amended): the operations that do check ownership — single fetch
(company check), improve, update, archive, publish and schedule (author
check) — all fail with the 403 `AuthorizationError` for a caller from a
different company (who is in particular a different account from the
author), and, being failures, return no data and leave the store
untouched.  The remaining content operations (version listing,
single-version fetch, version restore, analytics fetch) perform no
ownership check at all: see the counterexample. -/
theorem C4_amended (s : Store) (ana : AnalyticsDoc) (id : Nat) (caller : UserCtx)
    (c : Content) (v : ViewEvent) (improved feedback newContent tz : String)
    (status? : Option Status) (channels : List String) (now publishAt : Nat)
    (hfind : findById s id = some c)
    (hcompany : c.company ≠ caller.company)
    (hauthor : c.author ≠ caller.id) :
    getContent s ana id caller v = .error unauthorizedErr
      ∧ improveContent s id caller improved feedback = .error unauthorizedErr
      ∧ updateContent s id caller newContent status? = .error unauthorizedErr
      ∧ deleteContent s id caller = .error unauthorizedErr
      ∧ publishContent s id caller channels now = .error unauthorizedErr
      ∧ scheduleContent s id caller publishAt tz channels = .error unauthorizedErr
      ∧ unauthorizedErr.status = 403 := by
  refine ⟨?_, ?_, ?_, ?_, ?_, ?_, rfl⟩ <;>
    simp [getContent, improveContent, updateContent, deleteContent,
      publishContent, scheduleContent, hfind, hcompany, hauthor]

/-- Closed instance of `C4_amended`: company-1 content, a company-2
caller. -/
theorem C4_witness :
    (findById [(7, Content.fresh "t" "blog" "b" 1 1)] 7
        = some (Content.fresh "t" "blog" "b" 1 1))
      ∧ (Content.fresh "t" "blog" "b" 1 1).company ≠ (2 : Nat)
      ∧ (Content.fresh "t" "blog" "b" 1 1).author ≠ (2 : Nat)
      ∧ getContent [(7, Content.fresh "t" "blog" "b" 1 1)] (AnalyticsDoc.fresh 7 1) 7
          { id := 2, company := 2 } { day := 0, source := "api", userAgent := "ua" }
        = .error unauthorizedErr
      ∧ improveContent [(7, Content.fresh "t" "blog" "b" 1 1)] 7
          { id := 2, company := 2 } "x" "y" = .error unauthorizedErr := by
  have h := C4_amended [(7, Content.fresh "t" "blog" "b" 1 1)]
    (AnalyticsDoc.fresh 7 1) 7 { id := 2, company := 2 }
    (Content.fresh "t" "blog" "b" 1 1)
    { day := 0, source := "api", userAgent := "ua" } "x" "y" "nc" "tz"
    none [] 0 0 rfl (by decide) (by decide)
  exact ⟨rfl, by decide, by decide, h.1, h.2.1⟩

/-- C4 counterexample: with no ownership check in `getContentVersions`
and `restoreContentVersion`, a company-2 caller both reads the revisions
of company-1 content and mutates it by restoring an old version — the
claim that every such cross-company operation fails is false. -/
theorem C4_counterexample :
    getContentVersions
        [(7, { title := "t", ctype := "blog", content := "cur", status := .draft,
               author := 1, company := 1, channels := [], schedule := none,
               version := 2,
               revisions := [{ content := "old", modifiedBy := 1, version := 1,
                               changeLog := "n" }],
               isArchived := false })] 7 { id := 2, company := 2 }
      = .ok [{ content := "old", modifiedBy := 1, version := 1, changeLog := "n" }]
      ∧ restoreContentVersion
          [(7, { title := "t", ctype := "blog", content := "cur", status := .draft,
                 author := 1, company := 1, channels := [], schedule := none,
                 version := 2,
                 revisions := [{ content := "old", modifiedBy := 1, version := 1,
                                 changeLog := "n" }],
                 isArchived := false })] 7 { id := 2, company := 2 } 1
        = .ok [(7, { title := "t", ctype := "blog", content := "old", status := .draft,
                     author := 1, company := 1, channels := [], schedule := none,
                     version := 3,
                     revisions := [{ content := "old", modifiedBy := 1, version := 1,
                                     changeLog := "n" },
                                   { content := "cur", modifiedBy := 2, version := 2,
                                     changeLog := "Restored to version 1" }],
                     isArchived := false })] :=
  ⟨rfl, rfl⟩

/-! ## C5 -/

/-- C5 (amended): the status state machine is not enforced.
`publishContent` sets `status` to `published` whatever the previous
status was (including `archived`), and `updateContent` sets `status` to
any value the caller supplies; so artifacts can move out of `archived`. -/
theorem C5_amended (s : Store) (id : Nat) (caller : UserCtx)
    (channels : List String) (now : Nat) (c : Content) (st : Status)
    (newContent : String)
    (hfind : findById s id = some c) (hauth : c.author = caller.id) :
    (∃ s', publishContent s id caller channels now = .ok s'
        ∧ ∃ c', findById s' id = some c' ∧ c'.status = .published)
      ∧ (∃ s', updateContent s id caller newContent (some st) = .ok s'
        ∧ ∃ c', findById s' id = some c' ∧ c'.status = st) := by
  constructor
  · have hpub : publishContent s id caller channels now
        = .ok (storeSet s id
          { c with
            channels := channels.map (fun p =>
              { platform := p, cstatus := .published, publishedAt := some now }),
            status := .published }) := by
      simp [publishContent, hfind, hauth]
    exact ⟨_, hpub, _, findById_storeSet s id c _ hfind, rfl⟩
  · have hupd : updateContent s id caller newContent (some st)
        = .ok (storeSet s id
          { addRevision caller.id c.content "Manual update" c with
            content := newContent, status := st }) := by
      simp [updateContent, hfind, hauth]
    exact ⟨_, hupd, _, findById_storeSet s id c _ hfind, rfl⟩

/-- Closed instance of `C5_amended` at an `archived` artifact. -/
theorem C5_witness :
    (findById [(1, { Content.fresh "t" "blog" "b" 3 9 with status := .archived })] 1
        = some { Content.fresh "t" "blog" "b" 3 9 with status := .archived })
      ∧ { Content.fresh "t" "blog" "b" 3 9 with status := .archived }.author = (3 : Nat)
      ∧ (∃ s', publishContent
            [(1, { Content.fresh "t" "blog" "b" 3 9 with status := .archived })] 1
            { id := 3, company := 9 } ["website"] 99 = .ok s'
          ∧ ∃ c', findById s' 1 = some c' ∧ c'.status = .published) := by
  have h := C5_amended
    [(1, { Content.fresh "t" "blog" "b" 3 9 with status := .archived })] 1
    { id := 3, company := 9 } ["website"] 99
    { Content.fresh "t" "blog" "b" 3 9 with status := .archived }
    .draft "nc" rfl rfl
  exact ⟨rfl, rfl, h.1⟩

/-- C5 counterexample: publishing an `archived` artifact moves it
straight back to `published` — a transition out of `archived`, which the
claim says never happens. -/
theorem C5_counterexample :
    publishContent
        [(1, { title := "t", ctype := "blog", content := "b", status := .archived,
               author := 3, company := 9, channels := [], schedule := none,
               version := 1, revisions := [], isArchived := false })] 1
        { id := 3, company := 9 } ["website"] 99
      = .ok [(1, { title := "t", ctype := "blog", content := "b", status := .published,
                   author := 3, company := 9,
                   channels := [{ platform := "website", cstatus := .published,
                                  publishedAt := some 99 }],
                   schedule := none, version := 1, revisions := [],
                   isArchived := false })] := rfl

/-! ## C6 -/

/-- C6 (amended): `formatPrompt` substitutes only the placeholders whose
keys appear in `params` — with no params the template comes back verbatim
— and `generateContent` performs no placeholder validation: its failures
are only the 500/503 upstream-or-internal errors, never a 400
`ValidationError`, and a prompt with an unsupplied placeholder keeps the
placeholder token (shown for `blog` without `tone`). -/
theorem C6_amended :
    (∀ t : String, formatPrompt t [] = promptTemplates t)
      ∧ (∀ (t : String) (params : List (String × String)) (gp : GenParamsOpt)
          (api : String → GenParams → Except (Option String) Completion) (e : APIErr),
          generateContent t params gp api = .error e → e.status = 500 ∨ e.status = 503)
      ∧ ((formatPrompt "blog" [("topic", "X")]).map
          (fun p => containsSubstr p "\x7btone\x7d") = some true) := by
  refine ⟨?_, ?_, ?_⟩
  · intro t
    simp [formatPrompt]
  · intro t params gp api e hok
    cases hf : formatPrompt t params with
    | none =>
      simp only [generateContent, hf, Except.error.injEq] at hok
      left
      rw [← hok]
    | some p =>
      cases ha : api p (mergeParams defaultParams gp) with
      | ok comp =>
        simp [generateContent, hf, ha] at hok
      | error o =>
        cases o with
        | none =>
          simp only [generateContent, hf, ha, Except.error.injEq] at hok
          left
          rw [← hok]
        | some m =>
          simp only [generateContent, hf, ha, Except.error.injEq] at hok
          right
          rw [← hok]
  · decide

/-- Closed instance of `C6_amended`: a failing upstream call surfaces as
the 500 error, which is not a 400 `ValidationError`. -/
theorem C6_witness :
    (generateContent "blog" [] {} (fun _ _ => .error none)
        = .error { message := "Error generating content", status := 500 })
      ∧ (({ message := "Error generating content", status := 500 } : APIErr).status = 500
          ∨ ({ message := "Error generating content", status := 500 } : APIErr).status = 503) :=
  ⟨rfl, C6_amended.2.1 "blog" [] {} (fun _ _ => .error none) _ rfl⟩

/-- C6 counterexample: `generateContent` for type `blog` with only
`topic` supplied succeeds (no `ValidationError` for the missing `tone`,
`audience`, `points`), and the prompt it sends upstream still contains
the unsubstituted `\x7btone\x7d` token — refuting both halves of the
claim. -/
theorem C6_counterexample :
    (match generateContent "blog" [("topic", "X")] {}
        (fun _ _ => .ok { text := "out", totalTokens := 1 }) with
     | .ok r => containsSubstr r.prompt "\x7btone\x7d"
     | .error _ => false) = true := by
  decide

/-! ## C7 -/

/-- C7: `calculatePercentageChange` returns 0 when both values are 0,
100 when the old value is 0 and the new one is not, and
`((new - old) / old) * 100` otherwise. -/
theorem C7_percentage_change (oldValue newValue : ℚ) :
    (oldValue = 0 → newValue = 0 → calculatePercentageChange oldValue newValue = 0)
      ∧ (oldValue = 0 → newValue ≠ 0 → calculatePercentageChange oldValue newValue = 100)
      ∧ (oldValue ≠ 0 →
          calculatePercentageChange oldValue newValue
            = (newValue - oldValue) / oldValue * 100) := by
  refine ⟨?_, ?_, ?_⟩ <;> intros <;> simp [calculatePercentageChange, *]

/-- Closed instances of `C7_percentage_change` covering all three
branches. -/
theorem C7_witness :
    ((0 : ℚ) = 0)
      ∧ ((100 : ℚ) ≠ 0)
      ∧ ((1 : ℚ) ≠ 0)
      ∧ calculatePercentageChange 0 0 = 0
      ∧ calculatePercentageChange 0 100 = 100
      ∧ calculatePercentageChange 1 1 = (1 - 1) / 1 * 100 :=
  ⟨rfl, by simp, by simp,
    (C7_percentage_change 0 0).1 rfl rfl,
    (C7_percentage_change 0 100).2.1 rfl (by simp),
    (C7_percentage_change 1 1).2.2 (by simp)⟩

/-! ## C9 -/

theorem userToJSON_lookup_sensitive (obj : List (String × String)) (k : String)
    (hk : k ∈ sensitiveKeys) : (userToJSON obj).lookup k = none := by
  induction obj with
  | nil => rfl
  | cons kv rest ih =>
    obtain ⟨k1, v1⟩ := kv
    by_cases hkv : k1 ∈ sensitiveKeys
    · have hdrop : userToJSON ((k1, v1) :: rest) = userToJSON rest := by
        simp [userToJSON, hkv]
      rw [hdrop]
      exact ih
    · have hkeep : userToJSON ((k1, v1) :: rest) = (k1, v1) :: userToJSON rest := by
        simp [userToJSON, hkv]
      have hne : (k == k1) = false := by
        have hne' : k ≠ k1 := by
          intro heq
          rw [heq] at hk
          exact hkv hk
        simpa using hne'
      rw [hkeep]
      simp only [List.lookup, hne]
      exact ih

/-- C9: however many times an account object passes through the
external-facing serialization, the result never contains the credential
hash (`password`), the API key, or the design-tool integration tokens
(`figmaIntegration`).  Deserializing a serialized plain object is the
identity, so `n` serialization passes are `userToJSON^[n]`. -/
theorem C9_serialization_excludes_sensitive (obj : List (String × String))
    (n : Nat) (hn : 1 ≤ n) (k : String) (hk : k ∈ sensitiveKeys) :
    ((userToJSON)^[n] obj).lookup k = none := by
  obtain ⟨m, rfl⟩ : ∃ m, n = m + 1 := ⟨n - 1, by omega⟩
  rw [Function.iterate_succ_apply']
  exact userToJSON_lookup_sensitive _ k hk

/-- Closed instance of `C9_serialization_excludes_sensitive` on an
account object that carries all the sensitive fields. -/
theorem C9_witness :
    (1 ≤ 1)
      ∧ ("password" ∈ sensitiveKeys)
      ∧ ((userToJSON)^[1]
          [("email", "a@b.c"), ("password", "hash"), ("apiKey", "key"),
           ("figmaIntegration", "tokens")]).lookup "password" = none :=
  ⟨by decide, by decide,
    C9_serialization_excludes_sensitive
      [("email", "a@b.c"), ("password", "hash"), ("apiKey", "key"),
       ("figmaIntegration", "tokens")] 1 (by decide) "password" (by decide)⟩

/-! ## C10 -/

theorem listContent_filter_archived (s : Store) (caller : UserCtx)
    (ty : Option String) (st : Option Status) :
    ((s.filter (fun e => !e.2.isArchived)).map Prod.snd).filter
        (listQueryMatches caller ty st)
      = (s.map Prod.snd).filter (listQueryMatches caller ty st) := by
  induction s with
  | nil => rfl
  | cons e rest ih =>
    by_cases ha : e.2.isArchived
    · have hq : listQueryMatches caller ty st e.2 = false := by
        simp [listQueryMatches, ha]
      simp [ha, hq, ih]
    · cases hq : listQueryMatches caller ty st e.2 <;> simp [ha, hq, ih]

/-- C10: every artifact on a `listContent` page is non-archived and
belongs to the caller's company; and both the page and the reported total
are unchanged if all archived artifacts are removed from the store first
— archived artifacts never appear in the results or in the count. -/
theorem C10_list_excludes_archived (s : Store) (caller : UserCtx) (ty : Option String)
    (st : Option Status) (page limit : Nat) :
    (∀ c ∈ (listContent s caller ty st page limit).1,
        c.isArchived = false ∧ c.company = caller.company)
      ∧ listContent (s.filter (fun e => !e.2.isArchived)) caller ty st page limit
          = listContent s caller ty st page limit := by
  constructor
  · intro c hc
    have h1 : c ∈ (s.map Prod.snd).filter (listQueryMatches caller ty st) :=
      List.mem_of_mem_drop (List.mem_of_mem_take hc)
    have h2 := (List.mem_filter.mp h1).2
    simp only [listQueryMatches, Bool.and_eq_true, decide_eq_true_eq] at h2
    exact ⟨h2.1.1.2, h2.1.1.1⟩
  · unfold listContent
    rw [listContent_filter_archived]

/-- Closed instance of `C10_list_excludes_archived`: a one-document store
whose single document is on the returned page. -/
theorem C10_witness :
    (Content.fresh "t" "blog" "b" 4 9
        ∈ (listContent [(1, Content.fresh "t" "blog" "b" 4 9)]
            { id := 4, company := 9 } none none 1 10).1)
      ∧ (Content.fresh "t" "blog" "b" 4 9).isArchived = false
      ∧ (Content.fresh "t" "blog" "b" 4 9).company = 9 := by
  have h := (C10_list_excludes_archived [(1, Content.fresh "t" "blog" "b" 4 9)]
    { id := 4, company := 9 } none none 1 10).1
    (Content.fresh "t" "blog" "b" 4 9) (by decide)
  exact ⟨by decide, h.1, h.2⟩

/-! ## C8 -/

theorem toDigitsCore_length_of_range :
    ∀ (k n fuel : Nat) (ds : List Char), 16 ^ k ≤ n → n < 16 ^ (k + 1) → n < fuel →
      (Nat.toDigitsCore 16 fuel n ds).length = k + 1 + ds.length := by
  intro k
  induction k with
  | zero =>
    intro n fuel ds h1 h2 hf
    match fuel with
    | 0 => omega
    | f + 1 =>
      have hdiv : n / 16 = 0 := by omega
      simp [Nat.toDigitsCore, hdiv]
      omega
  | succ k ih =>
    intro n fuel ds h1 h2 hf
    match fuel with
    | 0 => omega
    | f + 1 =>
      have h16 : 16 ≤ n := by
        have : 16 ^ 1 ≤ 16 ^ (k + 1) := Nat.pow_le_pow_right (by norm_num) (by omega)
        simpa using le_trans this h1
      have hdiv : ¬(n / 16 = 0) := by omega
      have hd1 : 16 ^ k ≤ n / 16 := by
        rw [Nat.le_div_iff_mul_le (by norm_num)]
        rw [pow_succ] at h1
        exact h1
      have hd2 : n / 16 < 16 ^ (k + 1) := by
        rw [Nat.div_lt_iff_lt_mul (by norm_num)]
        rw [pow_succ] at h2
        exact h2
      have hd3 : n / 16 < f := by omega
      have := ih (n / 16) f (Nat.digitChar (n % 16) :: ds) hd1 hd2 hd3
      simp only [Nat.toDigitsCore, hdiv, if_false]
      rw [this]
      simp
      omega

theorem toDigits_length_of_range (n : Nat) (h1 : 16 ^ 6 ≤ n) (h2 : n < 16 ^ 7) :
    (Nat.toDigits 16 n).length = 7 := by
  unfold Nat.toDigits
  rw [toDigitsCore_length_of_range 6 n (n + 1) [] h1 h2 (by omega)]
  rfl

theorem jsRound_channel_bounds (q : ℚ) (h0 : 0 ≤ q) (h1 : q ≤ 1) :
    0 ≤ jsRound (q * 255) ∧ jsRound (q * 255) ≤ 255 := by
  unfold jsRound
  constructor
  · apply Int.le_floor.mpr
    push_cast
    nlinarith
  · have hlt : ⌊q * 255 + 1 / 2⌋ < (256 : ℤ) := by
      apply Int.floor_lt.mpr
      push_cast
      nlinarith
    omega

theorem rgbToHex_normalized_shape (c : RGB)
    (hr0 : 0 ≤ c.r) (hr1 : c.r ≤ 1) (hg0 : 0 ≤ c.g) (hg1 : c.g ≤ 1)
    (hb0 : 0 ≤ c.b) (hb1 : c.b ≤ 1) :
    (rgbToHex c).length = 7 ∧ (rgbToHex c).data.head? = some '#' := by
  obtain ⟨hrl, hru⟩ := jsRound_channel_bounds c.r hr0 hr1
  obtain ⟨hgl, hgu⟩ := jsRound_channel_bounds c.g hg0 hg1
  obtain ⟨hbl, hbu⟩ := jsRound_channel_bounds c.b hb0 hb1
  have hshape : rgbToHex c
      = "#" ++ (⟨(Nat.toDigits 16 ((2 ^ 24 + jsRound (c.r * 255) * 2 ^ 16
          + jsRound (c.g * 255) * 2 ^ 8 + jsRound (c.b * 255)).toNat)).drop 1⟩
        : String) := rfl
  have hnlo : 16 ^ 6 ≤ (2 ^ 24 + jsRound (c.r * 255) * 2 ^ 16
      + jsRound (c.g * 255) * 2 ^ 8 + jsRound (c.b * 255)).toNat := by omega
  have hnhi : (2 ^ 24 + jsRound (c.r * 255) * 2 ^ 16
      + jsRound (c.g * 255) * 2 ^ 8 + jsRound (c.b * 255)).toNat < 16 ^ 7 := by omega
  have hlen := toDigits_length_of_range _ hnlo hnhi
  constructor
  · rw [hshape, String.length_append]
    have hone : "#".length = 1 := rfl
    have hmk : ((⟨(Nat.toDigits 16 ((2 ^ 24 + jsRound (c.r * 255) * 2 ^ 16
        + jsRound (c.g * 255) * 2 ^ 8 + jsRound (c.b * 255)).toNat)).drop 1⟩
          : String)).length
        = ((Nat.toDigits 16 ((2 ^ 24 + jsRound (c.r * 255) * 2 ^ 16
            + jsRound (c.g * 255) * 2 ^ 8 + jsRound (c.b * 255)).toNat)).drop 1).length := rfl
    rw [hone, hmk, List.length_drop, hlen]
  · rw [hshape]
    rfl

theorem insertUnique_nodup {α : Type} [DecidableEq α] {l : List α} (x : α)
    (h : l.Nodup) : (insertUnique l x).Nodup := by
  unfold insertUnique
  split
  · exact h
  · rename_i hx
    simp [List.nodup_append, h, hx]

theorem foldl_insertUnique_nodup {α : Type} [DecidableEq α] :
    ∀ (xs : List α) (l : List α), l.Nodup → (xs.foldl insertUnique l).Nodup := by
  intro xs
  induction xs with
  | nil => intro l h; exact h
  | cons x rest ih => intro l h; exact ih _ (insertUnique_nodup x h)

theorem foldl_addFillColor_nodup :
    ∀ (fills : List Fill) (l : List String), l.Nodup →
      (fills.foldl addFillColor l).Nodup := by
  intro fills
  induction fills with
  | nil => intro l h; exact h
  | cons f rest ih =>
    intro l h
    refine ih _ ?_
    unfold addFillColor
    split
    · exact insertUnique_nodup _ h
    · exact h

theorem collectLocal_nodup (fills : List Fill) (style : Option TextStyle)
    (padding : Option Padding) (effects : List String) (t : DesignTokens)
    (h : TokensNodup t) : TokensNodup (collectLocal fills style padding effects t) := by
  obtain ⟨h1, h2, h3, h4⟩ := h
  refine ⟨foldl_addFillColor_nodup fills t.colors h1, ?_, ?_,
    foldl_insertUnique_nodup effects t.effects h4⟩
  · cases style with
    | none => exact h2
    | some st => exact insertUnique_nodup st h2
  · cases padding with
    | none => exact h3
    | some p => exact insertUnique_nodup p h3

mutual

theorem traverseNode_nodup (n : FigmaNode) (t : DesignTokens) (h : TokensNodup t) :
    TokensNodup (traverseNode n t) :=
  match n with
  | .mk fills style padding effects children =>
    traverseList_nodup children _ (collectLocal_nodup fills style padding effects t h)

theorem traverseList_nodup (ns : NodeList) (t : DesignTokens) (h : TokensNodup t) :
    TokensNodup (traverseList ns t) :=
  match ns with
  | .nil => h
  | .cons n rest => traverseList_nodup rest _ (traverseNode_nodup n t h)

end

theorem rgbToHex_red : rgbToHex { r := 1, g := 0, b := 0 } = "#ff0000" := by
  have h1 : jsRound ((1 : ℚ) * 255) = 255 := by norm_num [jsRound]
  have h0 : jsRound ((0 : ℚ) * 255) = 0 := by norm_num [jsRound]
  simp only [rgbToHex]
  rw [h1, h0]
  decide

theorem extract_twoFill_colors : (extractDesignTokens twoFillFile).colors = ["#ff0000"] := by
  simp [extractDesignTokens, twoFillFile, traverseNode, traverseList, collectLocal,
    addFillColor, redFill, insertUnique, rgbToHex_red]

/-- C8: every token category returned by `extractDesignTokens` is
duplicate-free; for normalized channel values the hex conversion yields a
`#` followed by exactly 6 hex digits; and a file with two
identically-styled solid fills yields exactly one color. -/
theorem C8_design_tokens :
    (∀ doc : FigmaNode, TokensNodup (extractDesignTokens doc))
      ∧ (∀ c : RGB, 0 ≤ c.r → c.r ≤ 1 → 0 ≤ c.g → c.g ≤ 1 → 0 ≤ c.b → c.b ≤ 1 →
          (rgbToHex c).length = 7 ∧ (rgbToHex c).data.head? = some '#')
      ∧ (extractDesignTokens twoFillFile).colors = ["#ff0000"] := by
  refine ⟨?_, ?_, extract_twoFill_colors⟩
  · intro doc
    exact traverseNode_nodup doc _ ⟨List.nodup_nil, List.nodup_nil, List.nodup_nil,
      List.nodup_nil⟩
  · intro c hr0 hr1 hg0 hg1 hb0 hb1
    exact rgbToHex_normalized_shape c hr0 hr1 hg0 hg1 hb0 hb1

/-- Closed instance of `C8_design_tokens` at the two-fill file and the
solid red color. -/
theorem C8_witness :
    ((0 : ℚ) ≤ 1 ∧ (1 : ℚ) ≤ 1 ∧ (0 : ℚ) ≤ 0 ∧ (0 : ℚ) ≤ 1)
      ∧ TokensNodup (extractDesignTokens twoFillFile)
      ∧ (rgbToHex { r := 1, g := 0, b := 0 }).length = 7
      ∧ (rgbToHex { r := 1, g := 0, b := 0 }).data.head? = some '#' := by
  have h := C8_design_tokens
  have hc := h.2.1 { r := 1, g := 0, b := 0 }
    zero_le_one (le_refl 1) (le_refl 0) zero_le_one (le_refl 0) zero_le_one
  exact ⟨⟨zero_le_one, le_refl 1, le_refl 0, zero_le_one⟩, h.1 twoFillFile, hc.1, hc.2⟩

end CMS
